import Mathlib

/-!
Board descriptors of the nRF52 bootloader.

A shallow embedding of the two board headers

* `src/boards/feather_nrf52840_sense/board.h`
* `src/boards/omnimo_nrf52840/board.h`

Each header is a list of preprocessor constants.  A header becomes one value of
`BoardDescriptor`, whose fields carry the names of the macros.  A macro that only
one of the headers defines is an `Option` field (`none` = not defined).

The pin macro `_PINNUM(port, pin)` expands to `((port)*32 + (pin))`, an expression
over the C type `int` (32 bits on the Cortex-M4 of the nRF52840).  It is embedded
over `Int` with an explicit two's-complement reduction after each operation.
-/

/-! ## Machine integers -/

/-- Reduction of an integer to the 32-bit two's-complement range
`-2^31 .. 2^31 - 1` of the C type `int` on the target. -/
def wrapInt32 (x : Int) : Int :=
  (x + 2147483648) % 4294967296 - 2147483648

/-! ## The pin numbering macro -/

/-- The macro `#define _PINNUM(port, pin) ((port)*32 + (pin))`, the same text in
both headers, evaluated in `int` arithmetic. -/
def _PINNUM (port pin : Int) : Int :=
  wrapInt32 (wrapInt32 (port * 32) + pin)

/-- The reference pin id of the data model, `port*32 + pin` over the unbounded
integers (no machine width). -/
def pinId (port pin : Int) : Int :=
  port * 32 + pin

/-! ## The descriptor -/

/-- The pull configurations of `nrf_gpio_pin_pull_t` (Nordic `nrf_gpio.h`); the
headers name `NRF_GPIO_PIN_PULLUP` only. -/
inductive nrf_gpio_pin_pull_t where
  | NRF_GPIO_PIN_NOPULL
  | NRF_GPIO_PIN_PULLDOWN
  | NRF_GPIO_PIN_PULLUP
  deriving DecidableEq, Repr

/-- One `board.h`: every macro the headers define, by name. -/
structure BoardDescriptor where
  LEDS_NUMBER : Nat
  LED_PRIMARY_PIN : Int
  LED_SECONDARY_PIN : Int
  LED_STATE_ON : Nat
  LED_NEOPIXEL : Int
  NEOPIXELS_NUMBER : Nat
  BOARD_RGB_BRIGHTNESS : Nat
  BUTTONS_NUMBER : Nat
  BUTTON_1 : Int
  BUTTON_2 : Int
  BUTTON_PULL : nrf_gpio_pin_pull_t
  BLEDIS_MANUFACTURER : String
  BLEDIS_MODEL : String
  USB_DESC_VID : Nat
  USB_DESC_UF2_PID : Nat
  USB_DESC_CDC_ONLY_PID : Nat
  UF2_PRODUCT_NAME : String
  UF2_VOLUME_LABEL : String
  UF2_BOARD_ID : String
  UF2_INDEX_URL : String
  CFG_UF2_BOOTLOADER : Option Nat
  CFG_BOOTLOADER_VERSION : Option Nat
  BOOT_VALIDATE_APP : Option Nat

/-- The header `boards/feather_nrf52840_sense/board.h`. -/
def feather_nrf52840_sense : BoardDescriptor where
  LEDS_NUMBER := 2
  LED_PRIMARY_PIN := _PINNUM 1 9
  LED_SECONDARY_PIN := _PINNUM 1 10
  LED_STATE_ON := 1
  LED_NEOPIXEL := _PINNUM 0 16
  NEOPIXELS_NUMBER := 1
  BOARD_RGB_BRIGHTNESS := 0x040404
  BUTTONS_NUMBER := 2
  BUTTON_1 := _PINNUM 1 2
  BUTTON_2 := _PINNUM 0 10
  BUTTON_PULL := .NRF_GPIO_PIN_PULLUP
  BLEDIS_MANUFACTURER := "Adafruit Industries"
  BLEDIS_MODEL := "Feather nRF52840 Sense"
  USB_DESC_VID := 0x239A
  USB_DESC_UF2_PID := 0x0087
  USB_DESC_CDC_ONLY_PID := 0x0088
  UF2_PRODUCT_NAME := "Adafruit Feather nRF52840 Sense"
  UF2_VOLUME_LABEL := "FTHRSNSBOOT"
  UF2_BOARD_ID := "nRF52840-Feather-Sense"
  UF2_INDEX_URL := "https://www.adafruit.com/product/4516"
  CFG_UF2_BOOTLOADER := some 1
  CFG_BOOTLOADER_VERSION := some 0x0001
  BOOT_VALIDATE_APP := some 0

/-- The header `boards/omnimo_nrf52840/board.h`.  The button pins are written
`02` and `07` there, which C reads as octal literals.  The header defines none
of `CFG_UF2_BOOTLOADER`, `CFG_BOOTLOADER_VERSION`, `BOOT_VALIDATE_APP`. -/
def omnimo_nrf52840 : BoardDescriptor where
  LEDS_NUMBER := 2
  LED_PRIMARY_PIN := _PINNUM 1 15
  LED_SECONDARY_PIN := _PINNUM 1 10
  LED_STATE_ON := 1
  LED_NEOPIXEL := _PINNUM 0 16
  NEOPIXELS_NUMBER := 1
  BOARD_RGB_BRIGHTNESS := 0x040404
  BUTTONS_NUMBER := 2
  BUTTON_1 := _PINNUM 1 0o2
  BUTTON_2 := _PINNUM 1 0o7
  BUTTON_PULL := .NRF_GPIO_PIN_PULLUP
  BLEDIS_MANUFACTURER := "eAFAQ"
  BLEDIS_MODEL := "OMNIMO nRF52840"
  USB_DESC_VID := 0x1209
  USB_DESC_UF2_PID := 0xCECE
  USB_DESC_CDC_ONLY_PID := 0xCECE
  UF2_PRODUCT_NAME := "Omnimo nRF52840"
  UF2_VOLUME_LABEL := "OMNIn52BOOT"
  UF2_BOARD_ID := "nRF52840-Omnimo"
  UF2_INDEX_URL := "https://www.crowdsupply.com/eafaq/omnimo-nrf52840"
  CFG_UF2_BOOTLOADER := none
  CFG_BOOTLOADER_VERSION := none
  BOOT_VALIDATE_APP := none

/-- The board descriptors of the source, in the order of the list above. -/
def boards : List BoardDescriptor :=
  [feather_nrf52840_sense, omnimo_nrf52840]

/-- The LED pins a descriptor supplies. -/
def led_pins (b : BoardDescriptor) : List Int :=
  [b.LED_PRIMARY_PIN, b.LED_SECONDARY_PIN]

/-- The button pins a descriptor supplies. -/
def button_pins (b : BoardDescriptor) : List Int :=
  [b.BUTTON_1, b.BUTTON_2]

/-- Every pin id a descriptor uses: LEDs, Neopixel, buttons. -/
def pin_ids (b : BoardDescriptor) : List Int :=
  led_pins b ++ [b.LED_NEOPIXEL] ++ button_pins b

/-- The character set of a legacy short file name (FAT 8.3 name, volume label):
upper-case letters `A`-`Z` (65..90), digits (48..57), the space (32) and the
punctuation `! # $ % & ' ( ) - @ ^ _` (33, 35..41, 45, 64, 94, 95), the grave
accent (96), the two braces (123, 125) and the tilde (126).  Lower-case letters
are outside the set. -/
def legacyShortNameChar (c : Char) : Bool :=
  (65 ≤ c.toNat && c.toNat ≤ 90) || (48 ≤ c.toNat && c.toNat ≤ 57) || c.toNat == 32 ||
    [33, 35, 36, 37, 38, 39, 40, 41, 45, 64, 94, 95, 96, 123, 125, 126].contains c.toNat

/-- A string of ASCII characters only: every code point is below 128. -/
def isAscii (s : String) : Bool :=
  s.toList.all fun c => decide (c.toNat < 128)

/-- The USB identities a descriptor declares, as (vendor id, product id) pairs:
the UF2 mode first, the CDC-only mode second. -/
def usb_ids (b : BoardDescriptor) : List (Nat × Nat) :=
  [(b.USB_DESC_VID, b.USB_DESC_UF2_PID), (b.USB_DESC_VID, b.USB_DESC_CDC_ONLY_PID)]

/-! ## Shared lemmas -/

/-- A value inside the `int` range is left alone by the reduction. -/
theorem wrapInt32_of_fits (x : Int) (hlo : -2147483648 ≤ x) (hhi : x < 2147483648) :
    wrapInt32 x = x := by
  unfold wrapInt32
  omega

/-- A property of every descriptor of the source is a property of the two headers. -/
theorem forall_boards_iff (P : BoardDescriptor → Prop) :
    (∀ b ∈ boards, P b) ↔ P feather_nrf52840_sense ∧ P omnimo_nrf52840 := by
  simp [boards]

/-! ## Pin numbering -/

/-- C1: for port 0 or 1 and a pin in 0..31 the macro `_PINNUM` equals the reference
`port*32 + pin` computed over the unbounded integers, so no wrap-around occurs; in
particular `_PINNUM(1, 9)` is 41, the `LED_PRIMARY_PIN` of the Feather Sense header. -/
theorem pinnum_eq_reference (port pin : Int) (hport : port = 0 ∨ port = 1)
    (hlo : 0 ≤ pin) (hhi : pin ≤ 31) :
    _PINNUM port pin = pinId port pin ∧ pinId port pin = port * 32 + pin ∧
      _PINNUM 1 9 = 41 ∧ feather_nrf52840_sense.LED_PRIMARY_PIN = 41 := by
  refine ⟨?_, rfl, by decide, by decide⟩
  unfold _PINNUM pinId wrapInt32
  omega

/-- C1 at the primary LED of the Feather Sense, port 1 and pin 9. -/
theorem pinnum_eq_reference_witness :
    ((1 : Int) = 0 ∨ (1 : Int) = 1) ∧ (0 : Int) ≤ 9 ∧ (9 : Int) ≤ 31 ∧
      (_PINNUM 1 9 = pinId 1 9 ∧ pinId 1 9 = 1 * 32 + 9 ∧
        _PINNUM 1 9 = 41 ∧ feather_nrf52840_sense.LED_PRIMARY_PIN = 41) :=
  ⟨by decide, by decide, by decide,
    pinnum_eq_reference 1 9 (by decide) (by decide) (by decide)⟩

/-- C2, refuted: `_PINNUM(0, 32)`, whose pin is out of range, is not rejected; it
yields the id 32, which is also the id of port 1, pin 0. -/
theorem pinnum_out_of_range_not_rejected :
    _PINNUM 0 32 = 32 ∧ _PINNUM 0 32 = _PINNUM 1 0 ∧ ¬ ((32 : Int) ≤ 31) := by
  decide

/-- C2 as amended: `_PINNUM` checks no range.  Whenever `port*32` and
`port*32 + pin` fit the type `int`, it yields the id `port*32 + pin`, whether or
not port and pin address a GPIO line. -/
theorem pinnum_total_no_range_check (port pin : Int)
    (hmul : -2147483648 ≤ port * 32 ∧ port * 32 < 2147483648)
    (hsum : -2147483648 ≤ port * 32 + pin ∧ port * 32 + pin < 2147483648) :
    _PINNUM port pin = port * 32 + pin := by
  unfold _PINNUM
  rw [wrapInt32_of_fits _ hmul.1 hmul.2, wrapInt32_of_fits _ hsum.1 hsum.2]

/-- C2 as amended, at port 0 and pin 32, a pin number out of range. -/
theorem pinnum_total_no_range_check_witness :
    (-2147483648 ≤ (0 : Int) * 32 ∧ (0 : Int) * 32 < 2147483648) ∧
      (-2147483648 ≤ (0 : Int) * 32 + 32 ∧ (0 : Int) * 32 + 32 < 2147483648) ∧
      _PINNUM 0 32 = 0 * 32 + 32 :=
  ⟨by decide, by decide, pinnum_total_no_range_check 0 32 (by decide) (by decide)⟩

/-! ## USB identity -/

/-- C3, refuted: the Omnimo header declares the same product id for the UF2 mode
and for the CDC-only mode. -/
theorem omnimo_usb_pids_equal :
    omnimo_nrf52840 ∈ boards ∧
      omnimo_nrf52840.USB_DESC_UF2_PID = omnimo_nrf52840.USB_DESC_CDC_ONLY_PID := by
  refine ⟨by simp [boards], by decide⟩

/-- C3 as amended: the Feather Sense header declares two different product ids,
0x0087 and 0x0088; the Omnimo header declares the one product id 0xCECE for both
modes. -/
theorem usb_pids_by_board :
    feather_nrf52840_sense.USB_DESC_UF2_PID = 0x0087 ∧
      feather_nrf52840_sense.USB_DESC_CDC_ONLY_PID = 0x0088 ∧
      feather_nrf52840_sense.USB_DESC_UF2_PID ≠
        feather_nrf52840_sense.USB_DESC_CDC_ONLY_PID ∧
      omnimo_nrf52840.USB_DESC_UF2_PID = 0xCECE ∧
      omnimo_nrf52840.USB_DESC_CDC_ONLY_PID = 0xCECE := by
  decide

/-! ## UF2 metadata -/

/-- C4, refuted: the volume label of the Omnimo header, `OMNIn52BOOT`, holds the
lower-case letter `n`, which is outside the legacy short-name character set. -/
theorem omnimo_volume_label_lower_case :
    omnimo_nrf52840 ∈ boards ∧ 'n' ∈ omnimo_nrf52840.UF2_VOLUME_LABEL.toList ∧
      legacyShortNameChar 'n' = false ∧ Char.isLower 'n' = true := by
  refine ⟨by simp [boards], by decide, by decide, by decide⟩

/-- C4 as amended: every character of the Feather Sense label `FTHRSNSBOOT` is in
the legacy short-name character set and none is lower-case; every character of the
Omnimo label `OMNIn52BOOT` is in the set apart from the single lower-case `n`, its
fifth character. -/
theorem volume_label_charset_by_board :
    feather_nrf52840_sense.UF2_VOLUME_LABEL = "FTHRSNSBOOT" ∧
      feather_nrf52840_sense.UF2_VOLUME_LABEL.toList.all legacyShortNameChar = true ∧
      feather_nrf52840_sense.UF2_VOLUME_LABEL.toList.any Char.isLower = false ∧
      omnimo_nrf52840.UF2_VOLUME_LABEL = "OMNIn52BOOT" ∧
      omnimo_nrf52840.UF2_VOLUME_LABEL.toList.filter (fun c => !legacyShortNameChar c) =
        ['n'] ∧
      omnimo_nrf52840.UF2_VOLUME_LABEL.toList.filter Char.isLower = ['n'] ∧
      omnimo_nrf52840.UF2_VOLUME_LABEL.toList.get? 4 = some 'n' := by
  refine ⟨rfl, by decide, by decide, rfl, by decide, by decide, by decide⟩

/-- C5: the volume label of every descriptor of the source has at most 11
characters; the Feather Sense label is `FTHRSNSBOOT`, of length exactly 11, while
the 16 characters of `FEATHERSENSEBOOT` exceed the bound. -/
theorem volume_label_length_le (b : BoardDescriptor) (hb : b ∈ boards) :
    b.UF2_VOLUME_LABEL.length ≤ 11 ∧
      feather_nrf52840_sense.UF2_VOLUME_LABEL = "FTHRSNSBOOT" ∧
      feather_nrf52840_sense.UF2_VOLUME_LABEL.length = 11 ∧
      "FEATHERSENSEBOOT".length = 16 ∧ ¬ ("FEATHERSENSEBOOT".length ≤ 11) := by
  refine ⟨?_, rfl, by decide, by decide, by decide⟩
  exact (forall_boards_iff fun d => d.UF2_VOLUME_LABEL.length ≤ 11).2
    ⟨by decide, by decide⟩ b hb

/-- C5 at the Omnimo header. -/
theorem volume_label_length_le_witness :
    omnimo_nrf52840 ∈ boards ∧
      (omnimo_nrf52840.UF2_VOLUME_LABEL.length ≤ 11 ∧
        feather_nrf52840_sense.UF2_VOLUME_LABEL = "FTHRSNSBOOT" ∧
        feather_nrf52840_sense.UF2_VOLUME_LABEL.length = 11 ∧
        "FEATHERSENSEBOOT".length = 16 ∧ ¬ ("FEATHERSENSEBOOT".length ≤ 11)) :=
  ⟨by simp [boards], volume_label_length_le omnimo_nrf52840 (by simp [boards])⟩

/-- C6: every board id of the registry is a non-empty string, two different
descriptors of the registry never carry the same board id, the list of board ids
has no duplicate, and the two ids are `nRF52840-Feather-Sense` and
`nRF52840-Omnimo`. -/
theorem board_id_nonempty_unique (b₁ b₂ : BoardDescriptor)
    (h₁ : b₁ ∈ boards) (h₂ : b₂ ∈ boards) :
    b₁.UF2_BOARD_ID ≠ "" ∧ (b₁ ≠ b₂ → b₁.UF2_BOARD_ID ≠ b₂.UF2_BOARD_ID) ∧
      (boards.map fun d => d.UF2_BOARD_ID).Nodup ∧
      boards.map (fun d => d.UF2_BOARD_ID) =
        ["nRF52840-Feather-Sense", "nRF52840-Omnimo"] ∧
      "nRF52840-Feather-Sense" ≠ "nRF52840-Omnimo" := by
  refine ⟨?_, ?_, by decide, rfl, by decide⟩
  · exact (forall_boards_iff fun d => d.UF2_BOARD_ID ≠ "").2 ⟨by decide, by decide⟩ b₁ h₁
  · have key : ∀ d₁ ∈ boards, ∀ d₂ ∈ boards,
        d₁.UF2_BOARD_ID = d₂.UF2_BOARD_ID → d₁ = d₂ := by
      intro d₁ hd₁ d₂ hd₂
      simp only [boards, List.mem_cons, List.mem_singleton, List.not_mem_nil,
        or_false] at hd₁ hd₂
      rcases hd₁ with rfl | rfl <;> rcases hd₂ with rfl | rfl
      · intro _; rfl
      · intro h; exact absurd h (by decide)
      · intro h; exact absurd h (by decide)
      · intro _; rfl
    intro hne heq
    exact hne (key b₁ h₁ b₂ h₂ heq)

/-- C6 at the pair Feather Sense, Omnimo. -/
theorem board_id_nonempty_unique_witness :
    feather_nrf52840_sense ∈ boards ∧ omnimo_nrf52840 ∈ boards ∧
      (feather_nrf52840_sense.UF2_BOARD_ID ≠ "" ∧
        (feather_nrf52840_sense ≠ omnimo_nrf52840 →
          feather_nrf52840_sense.UF2_BOARD_ID ≠ omnimo_nrf52840.UF2_BOARD_ID) ∧
        (boards.map fun d => d.UF2_BOARD_ID).Nodup ∧
        boards.map (fun d => d.UF2_BOARD_ID) =
          ["nRF52840-Feather-Sense", "nRF52840-Omnimo"] ∧
        "nRF52840-Feather-Sense" ≠ "nRF52840-Omnimo") :=
  ⟨by simp [boards], by simp [boards],
    board_id_nonempty_unique feather_nrf52840_sense omnimo_nrf52840
      (by simp [boards]) (by simp [boards])⟩

/-! ## Pins, counts, BLE identity, Neopixel -/

/-- C7: every pin id a descriptor of the source uses (primary and secondary LED,
Neopixel, both buttons) is `_PINNUM(port, pin)` for port 0 with a pin in 0..31 or
port 1 with a pin in 0..15, and so lies in 0..47; the Omnimo buttons, written `02`
and `07`, are the pins 2 and 7 of port 1. -/
theorem pin_ids_address_gpio (b : BoardDescriptor) (hb : b ∈ boards)
    (id : Int) (hid : id ∈ pin_ids b) :
    (∃ port pin : Int,
        ((port = 0 ∧ 0 ≤ pin ∧ pin ≤ 31) ∨ (port = 1 ∧ 0 ≤ pin ∧ pin ≤ 15)) ∧
          id = _PINNUM port pin) ∧
      0 ≤ id ∧ id ≤ 47 ∧
      omnimo_nrf52840.BUTTON_1 = _PINNUM 1 2 ∧ omnimo_nrf52840.BUTTON_2 = _PINNUM 1 7 := by
  have hrange : 0 ≤ id ∧ id ≤ 47 :=
    (forall_boards_iff fun d => ∀ i ∈ pin_ids d, 0 ≤ i ∧ i ≤ 47).2
      ⟨by decide, by decide⟩ b hb id hid
  refine ⟨?_, hrange.1, hrange.2, rfl, rfl⟩
  obtain ⟨h0, h47⟩ := hrange
  by_cases hsmall : id ≤ 31
  · refine ⟨0, id, Or.inl ⟨rfl, h0, hsmall⟩, ?_⟩
    unfold _PINNUM wrapInt32
    omega
  · refine ⟨1, id - 32, Or.inr ⟨rfl, by omega, by omega⟩, ?_⟩
    unfold _PINNUM wrapInt32
    omega

/-- C7 at the primary LED of the Omnimo header, port 1 and pin 15, id 47. -/
theorem pin_ids_address_gpio_witness :
    omnimo_nrf52840 ∈ boards ∧ (47 : Int) ∈ pin_ids omnimo_nrf52840 ∧
      ((∃ port pin : Int,
          ((port = 0 ∧ 0 ≤ pin ∧ pin ≤ 31) ∨ (port = 1 ∧ 0 ≤ pin ∧ pin ≤ 15)) ∧
            (47 : Int) = _PINNUM port pin) ∧
        (0 : Int) ≤ 47 ∧ (47 : Int) ≤ 47 ∧
        omnimo_nrf52840.BUTTON_1 = _PINNUM 1 2 ∧
        omnimo_nrf52840.BUTTON_2 = _PINNUM 1 7) :=
  ⟨by simp [boards], by decide,
    pin_ids_address_gpio omnimo_nrf52840 (by simp [boards]) 47 (by decide)⟩

/-- C8: in every descriptor of the source `LEDS_NUMBER` is the number of LED pins
supplied and `BUTTONS_NUMBER` the number of button pins supplied, both 2. -/
theorem counts_match_pins (b : BoardDescriptor) (hb : b ∈ boards) :
    b.LEDS_NUMBER = (led_pins b).length ∧ b.BUTTONS_NUMBER = (button_pins b).length ∧
      b.LEDS_NUMBER = 2 ∧ b.BUTTONS_NUMBER = 2 :=
  (forall_boards_iff fun d =>
      d.LEDS_NUMBER = (led_pins d).length ∧ d.BUTTONS_NUMBER = (button_pins d).length ∧
        d.LEDS_NUMBER = 2 ∧ d.BUTTONS_NUMBER = 2).2
    ⟨by decide, by decide⟩ b hb

/-- C8 at the Feather Sense header. -/
theorem counts_match_pins_witness :
    feather_nrf52840_sense ∈ boards ∧
      (feather_nrf52840_sense.LEDS_NUMBER = (led_pins feather_nrf52840_sense).length ∧
        feather_nrf52840_sense.BUTTONS_NUMBER =
          (button_pins feather_nrf52840_sense).length ∧
        feather_nrf52840_sense.LEDS_NUMBER = 2 ∧
        feather_nrf52840_sense.BUTTONS_NUMBER = 2) :=
  ⟨by simp [boards], counts_match_pins feather_nrf52840_sense (by simp [boards])⟩

/-- C9: in every descriptor of the source `BLEDIS_MANUFACTURER` and `BLEDIS_MODEL`
hold ASCII characters only (code points below 128) and take at most 127 bytes. -/
theorem bledis_strings_ascii_bounded (b : BoardDescriptor) (hb : b ∈ boards) :
    (∀ c ∈ b.BLEDIS_MANUFACTURER.toList, c.toNat < 128) ∧
      (∀ c ∈ b.BLEDIS_MODEL.toList, c.toNat < 128) ∧
      isAscii b.BLEDIS_MANUFACTURER = true ∧ isAscii b.BLEDIS_MODEL = true ∧
      b.BLEDIS_MANUFACTURER.utf8ByteSize ≤ 127 ∧ b.BLEDIS_MODEL.utf8ByteSize ≤ 127 :=
  (forall_boards_iff fun d =>
      (∀ c ∈ d.BLEDIS_MANUFACTURER.toList, c.toNat < 128) ∧
        (∀ c ∈ d.BLEDIS_MODEL.toList, c.toNat < 128) ∧
        isAscii d.BLEDIS_MANUFACTURER = true ∧ isAscii d.BLEDIS_MODEL = true ∧
        d.BLEDIS_MANUFACTURER.utf8ByteSize ≤ 127 ∧ d.BLEDIS_MODEL.utf8ByteSize ≤ 127).2
    ⟨by decide, by decide⟩ b hb

/-- C9 at the Feather Sense header. -/
theorem bledis_strings_ascii_bounded_witness :
    feather_nrf52840_sense ∈ boards ∧
      ((∀ c ∈ feather_nrf52840_sense.BLEDIS_MANUFACTURER.toList, c.toNat < 128) ∧
        (∀ c ∈ feather_nrf52840_sense.BLEDIS_MODEL.toList, c.toNat < 128) ∧
        isAscii feather_nrf52840_sense.BLEDIS_MANUFACTURER = true ∧
        isAscii feather_nrf52840_sense.BLEDIS_MODEL = true ∧
        feather_nrf52840_sense.BLEDIS_MANUFACTURER.utf8ByteSize ≤ 127 ∧
        feather_nrf52840_sense.BLEDIS_MODEL.utf8ByteSize ≤ 127) :=
  ⟨by simp [boards], bledis_strings_ascii_bounded feather_nrf52840_sense (by simp [boards])⟩

/-- C10: in every descriptor of the source `BOARD_RGB_BRIGHTNESS` is below 2^24, its
three 8-bit channels `(v / 65536) % 256`, `(v / 256) % 256` and `v % 256` are at most
255 and reassemble to `v`; the value is 0x040404, each channel being 4; and
`NEOPIXELS_NUMBER`, defined next to `LED_NEOPIXEL`, is at least 1. -/
theorem rgb_brightness_channels (b : BoardDescriptor) (hb : b ∈ boards) :
    b.BOARD_RGB_BRIGHTNESS < 2 ^ 24 ∧
      (b.BOARD_RGB_BRIGHTNESS / 65536) % 256 ≤ 255 ∧
      (b.BOARD_RGB_BRIGHTNESS / 256) % 256 ≤ 255 ∧
      b.BOARD_RGB_BRIGHTNESS % 256 ≤ 255 ∧
      ((b.BOARD_RGB_BRIGHTNESS / 65536) % 256) * 65536 +
          ((b.BOARD_RGB_BRIGHTNESS / 256) % 256) * 256 +
          b.BOARD_RGB_BRIGHTNESS % 256 = b.BOARD_RGB_BRIGHTNESS ∧
      b.BOARD_RGB_BRIGHTNESS = 0x040404 ∧
      (b.BOARD_RGB_BRIGHTNESS / 65536) % 256 = 4 ∧
      (b.BOARD_RGB_BRIGHTNESS / 256) % 256 = 4 ∧
      b.BOARD_RGB_BRIGHTNESS % 256 = 4 ∧
      1 ≤ b.NEOPIXELS_NUMBER :=
  (forall_boards_iff fun d =>
      d.BOARD_RGB_BRIGHTNESS < 2 ^ 24 ∧
        (d.BOARD_RGB_BRIGHTNESS / 65536) % 256 ≤ 255 ∧
        (d.BOARD_RGB_BRIGHTNESS / 256) % 256 ≤ 255 ∧
        d.BOARD_RGB_BRIGHTNESS % 256 ≤ 255 ∧
        ((d.BOARD_RGB_BRIGHTNESS / 65536) % 256) * 65536 +
            ((d.BOARD_RGB_BRIGHTNESS / 256) % 256) * 256 +
            d.BOARD_RGB_BRIGHTNESS % 256 = d.BOARD_RGB_BRIGHTNESS ∧
        d.BOARD_RGB_BRIGHTNESS = 0x040404 ∧
        (d.BOARD_RGB_BRIGHTNESS / 65536) % 256 = 4 ∧
        (d.BOARD_RGB_BRIGHTNESS / 256) % 256 = 4 ∧
        d.BOARD_RGB_BRIGHTNESS % 256 = 4 ∧
        1 ≤ d.NEOPIXELS_NUMBER).2
    ⟨by decide, by decide⟩ b hb

/-- C10 at the Omnimo header. -/
theorem rgb_brightness_channels_witness :
    omnimo_nrf52840 ∈ boards ∧ omnimo_nrf52840.BOARD_RGB_BRIGHTNESS < 2 ^ 24 ∧
      omnimo_nrf52840.BOARD_RGB_BRIGHTNESS = 0x040404 ∧
      1 ≤ omnimo_nrf52840.NEOPIXELS_NUMBER :=
  have h := rgb_brightness_channels omnimo_nrf52840 (by simp [boards])
  ⟨by simp [boards], h.1, h.2.2.2.2.2.1, h.2.2.2.2.2.2.2.2.2⟩

/-! ## Feature flags and completeness -/

/-- C11: in the Feather Sense header both feature flags are defined and boolean
(0 or 1): `CFG_UF2_BOOTLOADER` is 1, UF2-mode bootloading enabled, and
`BOOT_VALIDATE_APP` is 0, validation of the application before boot skipped. -/
theorem feather_feature_flags :
    (∃ uf2 validate : Nat,
        feather_nrf52840_sense.CFG_UF2_BOOTLOADER = some uf2 ∧
          feather_nrf52840_sense.BOOT_VALIDATE_APP = some validate ∧
          (uf2 = 0 ∨ uf2 = 1) ∧ (validate = 0 ∨ validate = 1) ∧
          uf2 = 1 ∧ validate = 0) ∧
      feather_nrf52840_sense.CFG_UF2_BOOTLOADER = some 1 ∧
      feather_nrf52840_sense.BOOT_VALIDATE_APP = some 0 :=
  ⟨⟨1, 0, rfl, rfl, Or.inr rfl, Or.inl rfl, rfl, rfl⟩, rfl, rfl⟩

/-- C12, the code at the Omnimo header: none of the feature flags
`CFG_UF2_BOOTLOADER`, `CFG_BOOTLOADER_VERSION`, `BOOT_VALIDATE_APP` is defined
there, while the Feather Sense header defines all three. -/
theorem omnimo_feature_flags_undefined :
    omnimo_nrf52840 ∈ boards ∧
      omnimo_nrf52840.CFG_UF2_BOOTLOADER = none ∧
      omnimo_nrf52840.CFG_BOOTLOADER_VERSION = none ∧
      omnimo_nrf52840.BOOT_VALIDATE_APP = none ∧
      feather_nrf52840_sense.CFG_UF2_BOOTLOADER.isSome = true ∧
      feather_nrf52840_sense.CFG_BOOTLOADER_VERSION.isSome = true ∧
      feather_nrf52840_sense.BOOT_VALIDATE_APP.isSome = true :=
  ⟨by simp [boards], rfl, rfl, rfl, rfl, rfl, rfl⟩

/-! ## Invertibility of the pin numbering, distinct pins, USB identities -/

/-- C13, refuted: for the natural port 2^26 = 67108864 and pin 0 the value of
`_PINNUM` divided by 32 is not the port, no value of the type `int` divided by 32
is the port 2^27 = 134217728, and the ports 2^27 and 0 get the same id at pin 0
although both pins are within 0..31. -/
theorem pinnum_large_port_not_invertible :
    (0 : Int) ≤ 67108864 ∧ _PINNUM 67108864 0 / 32 ≠ 67108864 ∧
      (∀ r : Int, r < 2147483648 → r / 32 ≠ 134217728) ∧
      _PINNUM 134217728 0 = _PINNUM 0 0 ∧ (134217728 : Int) ≠ 0 := by
  refine ⟨by decide, by decide, ?_, by decide, by decide⟩
  intro r hr
  omega

/-- C13 as amended: for ports in `0 .. 2^26 - 1`, the ports whose ids fit the type
`int`, and pins in 0..31, `_PINNUM(port, pin) / 32` is the port and
`_PINNUM(port, pin) % 32` is the pin, so equal ids come from equal ports and equal
pins; without the bound on the pin this fails, `_PINNUM(0, 32) = _PINNUM(1, 0)`. -/
theorem pinnum_invertible (port pin port' pin' : Int)
    (hport : 0 ≤ port ∧ port < 67108864) (hpin : 0 ≤ pin ∧ pin ≤ 31)
    (hport' : 0 ≤ port' ∧ port' < 67108864) (hpin' : 0 ≤ pin' ∧ pin' ≤ 31) :
    _PINNUM port pin / 32 = port ∧ _PINNUM port pin % 32 = pin ∧
      (_PINNUM port pin = _PINNUM port' pin' → port = port' ∧ pin = pin') ∧
      _PINNUM 0 32 = _PINNUM 1 0 ∧ ¬ ((32 : Int) ≤ 31) := by
  have hfit : ∀ p q : Int, 0 ≤ p ∧ p < 67108864 → 0 ≤ q ∧ q ≤ 31 →
      _PINNUM p q = p * 32 + q := by
    intro p q hp hq
    unfold _PINNUM wrapInt32
    omega
  rw [hfit port pin hport hpin, hfit port' pin' hport' hpin']
  refine ⟨by omega, by omega, ?_, by decide, by decide⟩
  intro h
  omega

/-- C13 as amended, at the primary LED (port 1, pin 9) and the second button
(port 0, pin 10) of the Feather Sense header. -/
theorem pinnum_invertible_witness :
    ((0 : Int) ≤ 1 ∧ (1 : Int) < 67108864) ∧ ((0 : Int) ≤ 9 ∧ (9 : Int) ≤ 31) ∧
      ((0 : Int) ≤ 0 ∧ (0 : Int) < 67108864) ∧ ((0 : Int) ≤ 10 ∧ (10 : Int) ≤ 31) ∧
      (_PINNUM 1 9 / 32 = 1 ∧ _PINNUM 1 9 % 32 = 9 ∧
        (_PINNUM 1 9 = _PINNUM 0 10 → (1 : Int) = 0 ∧ (9 : Int) = 10) ∧
        _PINNUM 0 32 = _PINNUM 1 0 ∧ ¬ ((32 : Int) ≤ 31)) :=
  ⟨by decide, by decide, by decide, by decide,
    pinnum_invertible 1 9 0 10 (by decide) (by decide) (by decide) (by decide)⟩

/-- C14: within every descriptor of the source the five pin ids (primary LED,
secondary LED, Neopixel, first button, second button) are pairwise distinct; they
are 41, 42, 16, 34, 10 in the Feather Sense header and 47, 42, 16, 34, 39 in the
Omnimo header. -/
theorem pin_ids_pairwise_distinct (b : BoardDescriptor) (hb : b ∈ boards) :
    (pin_ids b).Nodup ∧
      pin_ids b = [b.LED_PRIMARY_PIN, b.LED_SECONDARY_PIN, b.LED_NEOPIXEL,
        b.BUTTON_1, b.BUTTON_2] ∧
      pin_ids feather_nrf52840_sense = [41, 42, 16, 34, 10] ∧
      pin_ids omnimo_nrf52840 = [47, 42, 16, 34, 39] := by
  refine ⟨?_, rfl, by decide, by decide⟩
  exact (forall_boards_iff fun d => (pin_ids d).Nodup).2 ⟨by decide, by decide⟩ b hb

/-- C14 at the Omnimo header. -/
theorem pin_ids_pairwise_distinct_witness :
    omnimo_nrf52840 ∈ boards ∧
      ((pin_ids omnimo_nrf52840).Nodup ∧
        pin_ids omnimo_nrf52840 = [omnimo_nrf52840.LED_PRIMARY_PIN,
          omnimo_nrf52840.LED_SECONDARY_PIN, omnimo_nrf52840.LED_NEOPIXEL,
          omnimo_nrf52840.BUTTON_1, omnimo_nrf52840.BUTTON_2] ∧
        pin_ids feather_nrf52840_sense = [41, 42, 16, 34, 10] ∧
        pin_ids omnimo_nrf52840 = [47, 42, 16, 34, 39]) :=
  ⟨by simp [boards], pin_ids_pairwise_distinct omnimo_nrf52840 (by simp [boards])⟩

/-- C15: in every descriptor of the source `USB_DESC_VID`, `USB_DESC_UF2_PID` and
`USB_DESC_CDC_ONLY_PID` are below 2^16, and no (VID, PID) pair of the Feather
Sense header is a (VID, PID) pair of the Omnimo header. -/
theorem usb_ids_fit_and_disjoint (b : BoardDescriptor) (hb : b ∈ boards) :
    b.USB_DESC_VID < 2 ^ 16 ∧ b.USB_DESC_UF2_PID < 2 ^ 16 ∧
      b.USB_DESC_CDC_ONLY_PID < 2 ^ 16 ∧
      (∀ p ∈ usb_ids feather_nrf52840_sense, ∀ q ∈ usb_ids omnimo_nrf52840, p ≠ q) ∧
      usb_ids feather_nrf52840_sense = [(0x239A, 0x0087), (0x239A, 0x0088)] ∧
      usb_ids omnimo_nrf52840 = [(0x1209, 0xCECE), (0x1209, 0xCECE)] := by
  refine ⟨?_, ?_, ?_, by decide, by decide, by decide⟩
  · exact (forall_boards_iff fun d => d.USB_DESC_VID < 2 ^ 16).2
      ⟨by decide, by decide⟩ b hb
  · exact (forall_boards_iff fun d => d.USB_DESC_UF2_PID < 2 ^ 16).2
      ⟨by decide, by decide⟩ b hb
  · exact (forall_boards_iff fun d => d.USB_DESC_CDC_ONLY_PID < 2 ^ 16).2
      ⟨by decide, by decide⟩ b hb

/-- C15 at the Omnimo header. -/
theorem usb_ids_fit_and_disjoint_witness :
    omnimo_nrf52840 ∈ boards ∧
      (omnimo_nrf52840.USB_DESC_VID < 2 ^ 16 ∧ omnimo_nrf52840.USB_DESC_UF2_PID < 2 ^ 16 ∧
        omnimo_nrf52840.USB_DESC_CDC_ONLY_PID < 2 ^ 16 ∧
        (∀ p ∈ usb_ids feather_nrf52840_sense, ∀ q ∈ usb_ids omnimo_nrf52840, p ≠ q) ∧
        usb_ids feather_nrf52840_sense = [(0x239A, 0x0087), (0x239A, 0x0088)] ∧
        usb_ids omnimo_nrf52840 = [(0x1209, 0xCECE), (0x1209, 0xCECE)]) :=
  ⟨by simp [boards], usb_ids_fit_and_disjoint omnimo_nrf52840 (by simp [boards])⟩
